import Mathlib

/-!
Shallow embedding of `src/plugin/connector/saml_connector.py`
(`SamlConnector`): SAML metadata fetching/parsing, settings assembly,
assertion-validation orchestration and identity-provider display names.

External collaborators (the HTTP client `requests` and the SAML engine
`OneLogin_Saml2_Auth`) are modelled as oracles: their observable outcomes
are inputs to the embedded functions.  Python exceptions are modelled with
`Except`: the connector's own error classes `ERROR_NOT_FOUND` and
`ERROR_AUTHENTICATE_FAILURE` as dedicated constructors, raw Python
exceptions (`KeyError`, `AttributeError`, XML `ParseError`) as `pyError`.
XML documents are modelled as already-tokenised element trees in
ElementTree's Clark notation (`\x7bnamespace\x7dlocalname` tags), with a
`malformed` case standing for bytes that `ET.fromstring` rejects.
-/

/-- An XML element as exposed by `xml.etree.ElementTree`: a namespaced tag
in Clark notation, an attribute dictionary, the element's text content
(`None` when absent) and the list of child elements. -/
inductive Xml : Type where
  | elem (tag : String) (attrib : List (String × String)) (text : Option String)
      (children : List Xml) : Xml
deriving Repr

def Xml.tag : Xml → String
  | .elem t _ _ _ => t

def Xml.attrib : Xml → List (String × String)
  | .elem _ a _ _ => a

def Xml.text : Xml → Option String
  | .elem _ _ tx _ => tx

def Xml.children : Xml → List Xml
  | .elem _ _ _ cs => cs

mutual

/-- `element.find(".//tag", ns)`: first descendant (document order, the
element itself excluded) whose resolved tag equals `t`. -/
def Xml.findDesc (t : String) : Xml → Option Xml
  | .elem _ _ _ cs => Xml.findDescList t cs

/-- First match of `Xml.findDesc`'s search across a list of subtrees: each
root is checked before its own descendants, in document order. -/
def Xml.findDescList (t : String) : List Xml → Option Xml
  | [] => none
  | c :: cs =>
    if c.tag = t then some c
    else
      match Xml.findDesc t c with
      | some r => some r
      | none => Xml.findDescList t cs

end

/-- Error taxonomy of the connector.  `notFound` is `ERROR_NOT_FOUND`,
`authenticateFailure` is `ERROR_AUTHENTICATE_FAILURE` (both from
`spaceone.core.error`, each carrying its message); `pyError` is any raw
Python exception that propagates uncaught (`KeyError`, `AttributeError`,
`xml.etree.ElementTree.ParseError`). -/
inductive SamlError : Type where
  | notFound (message : String) : SamlError
  | authenticateFailure (message : String) : SamlError
  | pyError (message : String) : SamlError
deriving Repr, DecidableEq

/-- Bytes handed to `ET.fromstring`: either a well-formed document with its
root element, or malformed bytes that make the XML parse raise. -/
inductive XmlData : Type where
  | wellFormed (root : Xml) : XmlData
  | malformed (msg : String) : XmlData
deriving Repr

/-- `ET.fromstring(xml_data)`: the root element of a well-formed document,
a raised `ParseError` otherwise. -/
def et_fromstring : XmlData → Except SamlError Xml
  | .wellFormed root => .ok root
  | .malformed msg => .error (.pyError ("xml.etree.ElementTree.ParseError: " ++ msg))

/-- Outcome of the external `requests.get(metadata_url)` call together with
`raise_for_status()`: a 2xx response with its body, an HTTP error status
that makes `raise_for_status` raise, or a transport-level exception raised
by `requests.get` itself. -/
inductive FetchOutcome : Type where
  | success (content : XmlData) : FetchOutcome
  | httpError (status : Nat) (msg : String) : FetchOutcome
  | transportError (msg : String) : FetchOutcome
deriving Repr

/-- Python `str(x)` on an `Optional[str]`: `None` prints as `"None"` inside
an f-string. -/
def pyStr : Option String → String
  | none => "None"
  | some s => s

/-- Python `repr` of a list of strings, as an f-string renders it:
`[\x27a\x27, \x27b\x27]` (quote-escaping inside elements is not needed by
any message this module builds). -/
def pyListRepr (xs : List String) : String :=
  "[" ++ String.intercalate ", " (xs.map fun s => "\x27" ++ s ++ "\x27") ++ "]"

/-- Python `str.capitalize`: first character uppercased, every remaining
character lowercased (ASCII case mapping, all keys in scope are ASCII). -/
def pyCapitalize (s : String) : String :=
  match s.data with
  | [] => ""
  | c :: cs => String.mk (c.toUpper :: cs.map Char.toLower)

namespace SamlConnector

/-- Clark-notation tag matched by `root.find(".//ds:X509Certificate", ns)`
with `ns["ds"] = "http://www.w3.org/2000/09/xmldsig#"`. -/
def x509CertTag : String := "\x7bhttp://www.w3.org/2000/09/xmldsig#\x7dX509Certificate"

/-- Clark-notation tag matched by `root.find(".//md:SingleSignOnService", ns)`
with `ns["md"] = "urn:oasis:names:tc:SAML:2.0:metadata"`. -/
def ssoServiceTag : String := "\x7burn:oasis:names:tc:SAML:2.0:metadata\x7dSingleSignOnService"

/-- `SamlConnector._fetch_xml`: `requests.get` + `raise_for_status` inside
`try/except Exception`, every failure re-raised as `ERROR_NOT_FOUND`. -/
def fetch_xml : FetchOutcome → Except SamlError XmlData
  | .success content => .ok content
  | .httpError _ msg => .error (.notFound ("ERROR_NOT_FOUND: " ++ msg))
  | .transportError msg => .error (.notFound ("ERROR_NOT_FOUND: " ++ msg))

/-- `SamlConnector._parse_idp_xml` applied to the already-parsed root:
`entity_id = root.attrib["entityID"]` (a `KeyError` when absent), then
`x509_certificate = root.find(".//ds:X509Certificate", ns).text` (an
`AttributeError` on `None` when the element is absent; the element's own
text may still be `None`), then the optional first `SingleSignOnService`
whose `Location` attribute is read when the element exists (a `KeyError`
when that attribute is absent). -/
def parse_idp_xml (root : Xml) : Except SamlError (String × Option String × Option String) :=
  match root.attrib.lookup "entityID" with
  | none => .error (.pyError "KeyError: entityID")
  | some entity_id =>
    match Xml.findDesc x509CertTag root with
    | none => .error (.pyError "AttributeError: NoneType object has no attribute text")
    | some certEl =>
      let x509_certificate := certEl.text
      match Xml.findDesc ssoServiceTag root with
      | none => .ok (entity_id, x509_certificate, none)
      | some sso_service =>
        match sso_service.attrib.lookup "Location" with
        | none => .error (.pyError "KeyError: Location")
        | some loc => .ok (entity_id, x509_certificate, some loc)

/-- The `idp_name` dictionary literal of `SamlConnector._get_idp_name`
(hoisted to a constant so theorems can speak about known/unknown keys). -/
def idp_name_table : List (String × String) :=
  [("okta", "Okta"),
   ("frontegg", "Frontegg"),
   ("auth0", "Auth0"),
   ("one_login", "OneLogin"),
   ("pops", "Megazone PoPs"),
   ("ping_identity", "Ping Identity"),
   ("workos", "WorkOS"),
   ("keycloak", "Keycloak"),
   ("microsoft_entra_id", "Microsoft Entra ID")]

/-- `SamlConnector._get_idp_name`: fixed provider-name dictionary with a
`identity_provider.capitalize()` default for unknown keys. -/
def get_idp_name (identity_provider : String) : String :=
  (idp_name_table.lookup identity_provider).getD (pyCapitalize identity_provider)

end SamlConnector

/-- The `options` dict handed to `SamlConnector.init`.  Every field is read
with `options.get(...)`, so each may be absent (`None`); `protocol` alone
has a default (`"saml"`) applied at the read site. -/
structure InitOptions : Type where
  protocol : Option String
  identity_provider : Option String
  icon : Option String
  metadata_url : Option String
deriving Repr

/-- The `metadata` dict `SamlConnector.init` returns: exactly the keys
`identity_provider`, `protocol`, `icon`, `idp_name` and `sso_url`, in the
source's order. -/
structure Metadata : Type where
  identity_provider : Option String
  protocol : String
  icon : Option String
  idp_name : String
  sso_url : Option String
deriving Repr, DecidableEq

/-- The request `params` dict of `authorize`: only `http_host` is read by
the connector itself (`params.get("http_host")`, possibly `None`); the
rest of the dict goes to the SAML engine, modelled by the engine oracle. -/
structure AuthParams : Type where
  http_host : Option String
deriving Repr

/-- Observable outcomes of the external `OneLogin_Saml2_Auth` engine after
`process_response()`: `get_errors()`, `is_authenticated()`, and
`get_nameid()` (which the engine may raise from, modelled as `Except`
carrying the exception text). -/
structure OneLoginSamlAuth : Type where
  errors : List String
  is_authenticated : Bool
  get_nameid : Except String String
deriving Repr

/-- The `user_info` dict of `authorize`: the single key `user_id`. -/
structure UserInfo : Type where
  user_id : String
deriving Repr, DecidableEq

/-- `singleSignOnService` block of the assembled settings. -/
structure SsoService : Type where
  url : Option String
  binding : String
deriving Repr, DecidableEq

/-- `idp` block of the assembled settings. -/
structure IdpSettings : Type where
  entityId : String
  singleSignOnService : SsoService
  x509cert : Option String
deriving Repr, DecidableEq

/-- `assertionConsumerService` block of the assembled settings. -/
structure AcsService : Type where
  url : String
  binding : String
deriving Repr, DecidableEq

/-- `sp` block of the assembled settings (the commented-out SP certificate
of the source is absent here as well). -/
structure SpSettings : Type where
  entityId : String
  assertionConsumerService : AcsService
deriving Repr, DecidableEq

/-- `security` block of the assembled settings. -/
structure SecuritySettings : Type where
  wantAssertionsSigned : Bool
  wantNameId : Bool
  wantAttributeStatement : Bool
deriving Repr, DecidableEq

/-- The `self.saml_settings` dict assembled by
`SamlConnector._set_saml_settings`. -/
structure SamlSettings : Type where
  strict : Bool
  debug : Bool
  idp : IdpSettings
  sp : SpSettings
  security : SecuritySettings
deriving Repr, DecidableEq

namespace SamlConnector

/-- `SamlConnector.init(options)`: fetch the metadata, parse it (keeping
only `sso_url`), resolve the display name, and return the summary dict.
The fetch outcome for `options["metadata_url"]` is the `fetch` oracle.
When `identity_provider` is absent, `_get_idp_name(None)` raises an
`AttributeError` from `None.capitalize()`. -/
def init (fetch : FetchOutcome) (options : InitOptions) : Except SamlError Metadata :=
  let protocol := options.protocol.getD "saml"
  let identity_provider := options.identity_provider
  let icon := options.icon
  match fetch_xml fetch with
  | .error e => .error e
  | .ok xml_data =>
    match et_fromstring xml_data with
    | .error e => .error e
    | .ok root =>
      match parse_idp_xml root with
      | .error e => .error e
      | .ok (_, _, sso_url) =>
        match identity_provider with
        | none =>
          .error (.pyError "AttributeError: NoneType object has no attribute capitalize")
        | some ip =>
          let idp_name := get_idp_name ip
          .ok { identity_provider := identity_provider, protocol := protocol,
                icon := icon, idp_name := idp_name, sso_url := sso_url }

/-- `SamlConnector._set_saml_settings`: fetch and parse the IdP metadata,
then assemble the settings dict.  The source stores the result in
`self.saml_settings`; the embedding returns it.  `metadata_url` is the
argument forwarded to the fetch, whose outcome is the `fetch` oracle. -/
def set_saml_settings (fetch : FetchOutcome) (params : AuthParams)
    (metadata_url : String) (domain_id : String) : Except SamlError SamlSettings :=
  match fetch_xml fetch with
  | .error e => .error e
  | .ok idp_xml_data =>
    match et_fromstring idp_xml_data with
    | .error e => .error e
    | .ok root =>
      match parse_idp_xml root with
      | .error e => .error e
      | .ok (entity_id, idp_x509_certificate, sso_url) =>
        let http_host := params.http_host
        let acs_url :=
          "https://" ++ pyStr http_host ++ "/console-api/extension/auth/saml/" ++ domain_id
        .ok { strict := true
              debug := true
              idp := { entityId := entity_id
                       singleSignOnService :=
                         { url := sso_url
                           binding := "urn:oasis:names:tc:SAML:2.0:bindings:HTTP-Redirect" }
                       x509cert := idp_x509_certificate }
              sp := { entityId := domain_id
                      assertionConsumerService :=
                        { url := acs_url
                          binding := "urn:oasis:names:tc:SAML:2.0:bindings:HTTP-POST" } }
              security := { wantAssertionsSigned := true
                            wantNameId := true
                            wantAttributeStatement := false } }

/-- `SamlConnector._get_user_info_from_auth`: ` try: name_id = auth.get_nameid()`
and return `{"user_id": name_id}`; any exception becomes `ERROR_NOT_FOUND`. -/
def get_user_info_from_auth (auth : OneLoginSamlAuth) : Except SamlError UserInfo :=
  match auth.get_nameid with
  | .ok name_id => .ok { user_id := name_id }
  | .error e => .error (.notFound ("ERROR_NOT_FOUND: " ++ e))

/-- `SamlConnector.authorize(params, metadata_url, domain_id)`: build the
settings (re-fetching the metadata), run the engine (`auth` oracle), and
either extract the user info (when there are no errors and the principal
is authenticated) or raise `ERROR_AUTHENTICATE_FAILURE` carrying the
engine's error list in its message. -/
def authorize (fetch : FetchOutcome) (auth : OneLoginSamlAuth) (params : AuthParams)
    (metadata_url : String) (domain_id : String) : Except SamlError UserInfo :=
  match set_saml_settings fetch params metadata_url domain_id with
  | .error e => .error e
  | .ok _saml_settings =>
    let errors := auth.errors
    if errors = [] ∧ auth.is_authenticated = true then
      get_user_info_from_auth auth
    else
      .error (.authenticateFailure ("ERROR_AUTHENTICATE_FAILURE: " ++ pyListRepr errors))

end SamlConnector

instance {e a : Type} [DecidableEq e] [DecidableEq a] : DecidableEq (Except e a) := fun x y =>
  match x, y with
  | .ok v, .ok w => if h : v = w then .isTrue (by rw [h]) else .isFalse (by simp [h])
  | .error v, .error w => if h : v = w then .isTrue (by rw [h]) else .isFalse (by simp [h])
  | .ok _, .error _ => .isFalse (by simp)
  | .error _, .ok _ => .isFalse (by simp)

/-- Modelled from the spec: the capitalize-fallback as the spec words it,
"the raw key with its first letter capitalized" — first character
uppercased, remaining characters untouched.  Compared against the source's
`pyCapitalize` (Python `str.capitalize`, which also lowercases the rest). -/
def capitalizeFirstLetter (s : String) : String :=
  match s.data with
  | [] => ""
  | c :: cs => String.mk (c.toUpper :: cs)

/-- A sample `X509Certificate` element (signature namespace). -/
def sampleCertEl : Xml := .elem SamlConnector.x509CertTag [] (some "MIIC-sample-cert") []

/-- A sample `SingleSignOnService` element (metadata namespace) carrying a
`Binding` and a `Location` attribute. -/
def sampleSsoEl : Xml :=
  .elem SamlConnector.ssoServiceTag
    [("Binding", "urn:oasis:names:tc:SAML:2.0:bindings:HTTP-Redirect"),
     ("Location", "https://idp.example.com/sso")] none []

/-- A sample well-formed IdP metadata document: an `EntityDescriptor` root
with an `entityID`, holding the certificate and SSO elements inside an
`IDPSSODescriptor` child. -/
def sampleRoot : Xml :=
  .elem "\x7burn:oasis:names:tc:SAML:2.0:metadata\x7dEntityDescriptor"
    [("entityID", "https://idp.example.com/metadata")] none
    [.elem "\x7burn:oasis:names:tc:SAML:2.0:metadata\x7dIDPSSODescriptor" [] none
       [sampleCertEl, sampleSsoEl]]

/-- Like `sampleRoot` but with no `SingleSignOnService` element anywhere. -/
def sampleRootNoSso : Xml :=
  .elem "\x7burn:oasis:names:tc:SAML:2.0:metadata\x7dEntityDescriptor"
    [("entityID", "https://idp.example.com/metadata")] none
    [.elem "\x7burn:oasis:names:tc:SAML:2.0:metadata\x7dIDPSSODescriptor" [] none
       [sampleCertEl]]

/-- Like `sampleRoot` but with no `X509Certificate` element anywhere. -/
def sampleRootNoCert : Xml :=
  .elem "\x7burn:oasis:names:tc:SAML:2.0:metadata\x7dEntityDescriptor"
    [("entityID", "https://idp.example.com/metadata")] none
    [.elem "\x7burn:oasis:names:tc:SAML:2.0:metadata\x7dIDPSSODescriptor" [] none
       [sampleSsoEl]]

/-- A successful fetch delivering `sampleRoot`. -/
def sampleFetch : FetchOutcome := .success (.wellFormed sampleRoot)

/-- Sample `options` for `init`, all keys present. -/
def sampleOptions : InitOptions :=
  { protocol := some "saml", identity_provider := some "okta",
    icon := some "https://icons.example.com/okta.svg",
    metadata_url := some "https://idp.example.com/metadata" }

/-- Sample request params carrying an `http_host`. -/
def sampleParams : AuthParams := { http_host := some "app.example.com" }

/-- A sample engine outcome: no errors, authenticated, NameID extracted. -/
def sampleAuthOk : OneLoginSamlAuth :=
  { errors := [], is_authenticated := true, get_nameid := .ok "user@example.com" }

/-- The settings `_set_saml_settings` assembles from `sampleRoot`,
`sampleParams` and domain `domain-123`. -/
def sampleSettings : SamlSettings :=
  { strict := true
    debug := true
    idp := { entityId := "https://idp.example.com/metadata"
             singleSignOnService := { url := some "https://idp.example.com/sso"
                                      binding := "urn:oasis:names:tc:SAML:2.0:bindings:HTTP-Redirect" }
             x509cert := some "MIIC-sample-cert" }
    sp := { entityId := "domain-123"
            assertionConsumerService :=
              { url := "https://app.example.com/console-api/extension/auth/saml/domain-123"
                binding := "urn:oasis:names:tc:SAML:2.0:bindings:HTTP-POST" } }
    security := { wantAssertionsSigned := true
                  wantNameId := true
                  wantAttributeStatement := false } }

/-- Shared inversion helper: whenever `_set_saml_settings` succeeds, the
returned settings have the fixed configuration fields of the source's
literal, the SP entity ID equal to the domain ID, and the ACS URL built
from the request host and domain ID. -/
theorem set_saml_settings_ok_inv (fetch : FetchOutcome) (params : AuthParams)
    (metadata_url domain_id : String) (st : SamlSettings)
    (hset : SamlConnector.set_saml_settings fetch params metadata_url domain_id = .ok st) :
    st.strict = true ∧ st.debug = true ∧
    st.idp.singleSignOnService.binding = "urn:oasis:names:tc:SAML:2.0:bindings:HTTP-Redirect" ∧
    st.sp.entityId = domain_id ∧
    st.sp.assertionConsumerService.url =
      "https://" ++ pyStr params.http_host ++ "/console-api/extension/auth/saml/" ++ domain_id ∧
    st.sp.assertionConsumerService.binding = "urn:oasis:names:tc:SAML:2.0:bindings:HTTP-POST" ∧
    st.security.wantAssertionsSigned = true ∧
    st.security.wantNameId = true ∧
    st.security.wantAttributeStatement = false := by
  cases fetch with
  | success content =>
    cases content with
    | wellFormed root =>
      cases hp : SamlConnector.parse_idp_xml root with
      | error err =>
        rw [SamlConnector.set_saml_settings] at hset
        simp [SamlConnector.fetch_xml, et_fromstring, hp] at hset
      | ok t =>
        obtain ⟨entity_id, idp_x509_certificate, sso_url⟩ := t
        rw [SamlConnector.set_saml_settings] at hset
        simp only [SamlConnector.fetch_xml, et_fromstring, hp, Except.ok.injEq] at hset
        subst hset
        simp
    | malformed msg =>
      simp [SamlConnector.set_saml_settings, SamlConnector.fetch_xml, et_fromstring] at hset
  | httpError status msg =>
    simp [SamlConnector.set_saml_settings, SamlConnector.fetch_xml] at hset
  | transportError msg =>
    simp [SamlConnector.set_saml_settings, SamlConnector.fetch_xml] at hset

/-- Claim C1: when the metadata fetch succeeds on a well-formed document
that parses, and an identity-provider key is given, `init` returns the
summary dict with exactly the fields `identity_provider`, `protocol`,
`icon`, `idp_name` (the catalog display name of the given key) and
`sso_url` (the possibly-absent SSO location from the parsed metadata). -/
theorem init_returns_summary (fetch : FetchOutcome) (options : InitOptions)
    (root : Xml) (ip entity_id : String) (cert sso_url : Option String)
    (hfetch : fetch = .success (.wellFormed root))
    (hparse : SamlConnector.parse_idp_xml root = .ok (entity_id, cert, sso_url))
    (hip : options.identity_provider = some ip) :
    SamlConnector.init fetch options =
      .ok { identity_provider := some ip
            protocol := options.protocol.getD "saml"
            icon := options.icon
            idp_name := SamlConnector.get_idp_name ip
            sso_url := sso_url } := by
  subst hfetch
  rw [SamlConnector.init]
  simp [SamlConnector.fetch_xml, et_fromstring, hparse, hip]

/-- Witness for C1 at `sampleFetch`/`sampleOptions`. -/
theorem init_returns_summary_witness :
    SamlConnector.init sampleFetch sampleOptions =
      .ok { identity_provider := some "okta", protocol := "saml",
            icon := some "https://icons.example.com/okta.svg",
            idp_name := "Okta", sso_url := some "https://idp.example.com/sso" } := by
  have h := init_returns_summary sampleFetch sampleOptions sampleRoot "okta"
    "https://idp.example.com/metadata" (some "MIIC-sample-cert")
    (some "https://idp.example.com/sso") rfl (by decide) rfl
  exact h.trans (by decide)

/-- Claim C2: on a document whose root carries `entityID`, whose first
matching `X509Certificate` element carries text, and whose first matching
`SingleSignOnService` element carries a `Location`, the parser returns
exactly those three values unchanged. -/
theorem parse_idp_xml_roundtrip (root certEl ssoEl : Xml) (e c l : String)
    (he : root.attrib.lookup "entityID" = some e)
    (hcert : Xml.findDesc SamlConnector.x509CertTag root = some certEl)
    (hctext : certEl.text = some c)
    (hsso : Xml.findDesc SamlConnector.ssoServiceTag root = some ssoEl)
    (hloc : ssoEl.attrib.lookup "Location" = some l) :
    SamlConnector.parse_idp_xml root = .ok (e, some c, some l) := by
  rw [SamlConnector.parse_idp_xml]
  simp [he, hcert, hctext, hsso, hloc]

/-- Witness for C2 at `sampleRoot`. -/
theorem parse_idp_xml_roundtrip_witness :
    SamlConnector.parse_idp_xml sampleRoot =
      .ok ("https://idp.example.com/metadata", some "MIIC-sample-cert",
           some "https://idp.example.com/sso") :=
  parse_idp_xml_roundtrip sampleRoot sampleCertEl sampleSsoEl
    "https://idp.example.com/metadata" "MIIC-sample-cert" "https://idp.example.com/sso"
    rfl rfl rfl rfl rfl

/-- Claim C3: when the fetch fails — `raise_for_status` on a non-2xx
status, or a transport error from `requests.get` — both `init` and
`authorize` fail with `ERROR_NOT_FOUND` and no other error kind. -/
theorem fetch_failure_not_found (fetch : FetchOutcome) (options : InitOptions)
    (auth : OneLoginSamlAuth) (params : AuthParams) (metadata_url domain_id : String)
    (hfail : (∃ status msg, fetch = .httpError status msg) ∨
             (∃ msg, fetch = .transportError msg)) :
    (∃ m, SamlConnector.init fetch options = .error (.notFound m)) ∧
    (∃ m, SamlConnector.authorize fetch auth params metadata_url domain_id =
            .error (.notFound m)) := by
  rcases hfail with ⟨status, msg, rfl⟩ | ⟨msg, rfl⟩ <;>
    exact ⟨⟨"ERROR_NOT_FOUND: " ++ msg,
            by rw [SamlConnector.init]; simp [SamlConnector.fetch_xml]⟩,
           ⟨"ERROR_NOT_FOUND: " ++ msg,
            by rw [SamlConnector.authorize, SamlConnector.set_saml_settings]
               simp [SamlConnector.fetch_xml]⟩⟩

/-- Witness for C3 at an HTTP 404 outcome. -/
theorem fetch_failure_not_found_witness :
    (∃ m, SamlConnector.init (.httpError 404 "404 Client Error") sampleOptions =
            .error (.notFound m)) ∧
    (∃ m, SamlConnector.authorize (.httpError 404 "404 Client Error") sampleAuthOk
            sampleParams "https://idp.example.com/metadata" "domain-123" =
            .error (.notFound m)) :=
  fetch_failure_not_found (.httpError 404 "404 Client Error") sampleOptions sampleAuthOk
    sampleParams "https://idp.example.com/metadata" "domain-123"
    (Or.inl ⟨404, "404 Client Error", rfl⟩)

/-- Claim C4: once the settings are built, if the engine reports errors or
a non-authenticated principal, `authorize` raises
`ERROR_AUTHENTICATE_FAILURE` carrying the engine's error list (and returns
no user info); if instead NameID extraction raises on an otherwise valid
response, `authorize` raises `ERROR_NOT_FOUND` — a constructor distinct
from `authenticateFailure`. -/
theorem authorize_error_taxonomy (fetch : FetchOutcome) (auth : OneLoginSamlAuth)
    (params : AuthParams) (metadata_url domain_id : String) (st : SamlSettings)
    (hset : SamlConnector.set_saml_settings fetch params metadata_url domain_id = .ok st) :
    ((auth.errors ≠ [] ∨ auth.is_authenticated = false) →
      SamlConnector.authorize fetch auth params metadata_url domain_id =
        .error (.authenticateFailure
          ("ERROR_AUTHENTICATE_FAILURE: " ++ pyListRepr auth.errors))) ∧
    (∀ e, auth.errors = [] → auth.is_authenticated = true →
      auth.get_nameid = .error e →
      SamlConnector.authorize fetch auth params metadata_url domain_id =
        .error (.notFound ("ERROR_NOT_FOUND: " ++ e))) ∧
    (∀ m1 m2, SamlError.authenticateFailure m1 ≠ SamlError.notFound m2) := by
  refine ⟨?_, ?_, fun m1 m2 h => SamlError.noConfusion h⟩
  · intro h
    have hcond : ¬(auth.errors = [] ∧ auth.is_authenticated = true) := by
      intro hc
      rcases h with h | h
      · exact h hc.1
      · rw [hc.2] at h
        exact Bool.noConfusion h
    rw [SamlConnector.authorize]
    simp [hset, hcond]
  · intro e herr hauth hname
    rw [SamlConnector.authorize]
    simp [hset, herr, hauth, SamlConnector.get_user_info_from_auth, hname]

/-- Witness for C4: both error paths at concrete engine outcomes over
`sampleRoot` settings. -/
theorem authorize_error_taxonomy_witness :
    SamlConnector.authorize sampleFetch
        { errors := ["invalid signature"], is_authenticated := false,
          get_nameid := .ok "user@example.com" }
        sampleParams "https://idp.example.com/metadata" "domain-123" =
      .error (.authenticateFailure
        "ERROR_AUTHENTICATE_FAILURE: [\x27invalid signature\x27]") ∧
    SamlConnector.authorize sampleFetch
        { errors := [], is_authenticated := true, get_nameid := .error "nameid missing" }
        sampleParams "https://idp.example.com/metadata" "domain-123" =
      .error (.notFound "ERROR_NOT_FOUND: nameid missing") := by
  constructor
  · have h := (authorize_error_taxonomy sampleFetch
      { errors := ["invalid signature"], is_authenticated := false,
        get_nameid := .ok "user@example.com" }
      sampleParams "https://idp.example.com/metadata" "domain-123" sampleSettings
      (by decide)).1 (Or.inl (by decide))
    exact h.trans (by decide)
  · exact (authorize_error_taxonomy sampleFetch
      { errors := [], is_authenticated := true, get_nameid := .error "nameid missing" }
      sampleParams "https://idp.example.com/metadata" "domain-123" sampleSettings
      (by decide)).2.1 "nameid missing" rfl rfl rfl

/-- Claim C5: when the settings build succeeds, the engine reports no
errors, the principal is authenticated and the NameID is `n`, `authorize`
returns exactly `{user_id := n}`; `UserInfo` carries the NameID as its
sole field. -/
theorem authorize_success_nameid (fetch : FetchOutcome) (auth : OneLoginSamlAuth)
    (params : AuthParams) (metadata_url domain_id n : String) (st : SamlSettings)
    (hset : SamlConnector.set_saml_settings fetch params metadata_url domain_id = .ok st)
    (herr : auth.errors = []) (hauth : auth.is_authenticated = true)
    (hname : auth.get_nameid = .ok n) :
    SamlConnector.authorize fetch auth params metadata_url domain_id =
      .ok { user_id := n } ∧
    (∀ u : UserInfo, u = { user_id := u.user_id }) := by
  constructor
  · rw [SamlConnector.authorize]
    simp [hset, herr, hauth, SamlConnector.get_user_info_from_auth, hname]
  · intro u
    cases u
    rfl

/-- Witness for C5 at NameID `user@example.com`. -/
theorem authorize_success_nameid_witness :
    SamlConnector.authorize sampleFetch sampleAuthOk sampleParams
        "https://idp.example.com/metadata" "domain-123" =
      .ok { user_id := "user@example.com" } :=
  (authorize_success_nameid sampleFetch sampleAuthOk sampleParams
    "https://idp.example.com/metadata" "domain-123" "user@example.com" sampleSettings
    (by decide) rfl rfl rfl).1

/-- Claim C6: whenever the settings build succeeds with request host `h`
and domain `domain_id`, the SP assertion-consumer URL is
`https://h/console-api/extension/auth/saml/domain_id` and the SP entity ID
is `domain_id`. -/
theorem settings_acs_url_entity_id (fetch : FetchOutcome) (params : AuthParams)
    (metadata_url domain_id h : String) (st : SamlSettings)
    (hset : SamlConnector.set_saml_settings fetch params metadata_url domain_id = .ok st)
    (hhost : params.http_host = some h) :
    st.sp.assertionConsumerService.url =
      "https://" ++ h ++ "/console-api/extension/auth/saml/" ++ domain_id ∧
    st.sp.entityId = domain_id := by
  obtain ⟨-, -, -, hsp, hacs, -, -, -, -⟩ :=
    set_saml_settings_ok_inv fetch params metadata_url domain_id st hset
  refine ⟨?_, hsp⟩
  rw [hacs, hhost]
  rfl

/-- Witness for C6 at host `app.example.com` and domain `domain-123`. -/
theorem settings_acs_url_entity_id_witness :
    sampleSettings.sp.assertionConsumerService.url =
      "https://app.example.com/console-api/extension/auth/saml/domain-123" ∧
    sampleSettings.sp.entityId = "domain-123" := by
  have h := settings_acs_url_entity_id sampleFetch sampleParams
    "https://idp.example.com/metadata" "domain-123" "app.example.com" sampleSettings
    (by decide) rfl
  exact ⟨h.1.trans (by decide), h.2⟩

/-- Claim C7: every successfully assembled settings object has the fixed
configuration: `strict` true, IdP SSO binding HTTP-Redirect, SP ACS
binding HTTP-POST, and security flags (signed assertions required, NameID
required, attribute statement not required), for all inputs. -/
theorem settings_fixed_configuration (fetch : FetchOutcome) (params : AuthParams)
    (metadata_url domain_id : String) (st : SamlSettings)
    (hset : SamlConnector.set_saml_settings fetch params metadata_url domain_id = .ok st) :
    st.strict = true ∧
    st.idp.singleSignOnService.binding =
      "urn:oasis:names:tc:SAML:2.0:bindings:HTTP-Redirect" ∧
    st.sp.assertionConsumerService.binding =
      "urn:oasis:names:tc:SAML:2.0:bindings:HTTP-POST" ∧
    st.security.wantAssertionsSigned = true ∧
    st.security.wantNameId = true ∧
    st.security.wantAttributeStatement = false := by
  obtain ⟨h1, -, h3, -, -, h6, h7, h8, h9⟩ :=
    set_saml_settings_ok_inv fetch params metadata_url domain_id st hset
  exact ⟨h1, h3, h6, h7, h8, h9⟩

/-- Witness for C7 at the `sampleRoot` settings. -/
theorem settings_fixed_configuration_witness :
    sampleSettings.strict = true ∧
    sampleSettings.idp.singleSignOnService.binding =
      "urn:oasis:names:tc:SAML:2.0:bindings:HTTP-Redirect" ∧
    sampleSettings.sp.assertionConsumerService.binding =
      "urn:oasis:names:tc:SAML:2.0:bindings:HTTP-POST" ∧
    sampleSettings.security.wantAssertionsSigned = true ∧
    sampleSettings.security.wantNameId = true ∧
    sampleSettings.security.wantAttributeStatement = false :=
  settings_fixed_configuration sampleFetch sampleParams
    "https://idp.example.com/metadata" "domain-123" sampleSettings (by decide)

/-- Claim C8, counterexample: the claim's fallback — "the raw key with its
first letter capitalized" — fails at the unknown key `myIdP`: the code's
Python `capitalize` yields `Myidp`, not `MyIdP`. -/
theorem get_idp_name_capitalize_counterexample :
    SamlConnector.get_idp_name "myIdP" = "Myidp" ∧
    capitalizeFirstLetter "myIdP" = "MyIdP" ∧
    SamlConnector.get_idp_name "myIdP" ≠ capitalizeFirstLetter "myIdP" :=
  ⟨by decide, by decide, by decide⟩

/-- Claim C8 (amended): every known catalog key maps to its fixed table
name, and every unknown key maps to Python `str.capitalize` of the raw key
(first character uppercased, remaining characters lowercased); the
function is total on strings. -/
theorem get_idp_name_table_and_fallback (k : String)
    (hk : SamlConnector.idp_name_table.lookup k = none) :
    SamlConnector.get_idp_name k = pyCapitalize k ∧
    (∀ p ∈ SamlConnector.idp_name_table, SamlConnector.get_idp_name p.1 = p.2) := by
  constructor
  · rw [SamlConnector.get_idp_name, hk]
    rfl
  · intro p hp
    fin_cases hp <;> rfl

/-- Witness for C8 at the unknown key `unknown_key` and the known key
`okta`. -/
theorem get_idp_name_table_and_fallback_witness :
    SamlConnector.get_idp_name "unknown_key" = "Unknown_key" ∧
    SamlConnector.get_idp_name "okta" = "Okta" := by
  have h := get_idp_name_table_and_fallback "unknown_key" (by decide)
  exact ⟨h.1.trans (by decide), h.2 ("okta", "Okta") (by decide)⟩

/-- Claim C9: on a document whose root carries `entityID` and which
contains a certificate element but no `SingleSignOnService` element,
parsing succeeds with the entity ID, that element's certificate text, and
an absent `sso_url`. -/
theorem parse_missing_sso_succeeds (root certEl : Xml) (e : String)
    (he : root.attrib.lookup "entityID" = some e)
    (hcert : Xml.findDesc SamlConnector.x509CertTag root = some certEl)
    (hsso : Xml.findDesc SamlConnector.ssoServiceTag root = none) :
    SamlConnector.parse_idp_xml root = .ok (e, certEl.text, none) := by
  rw [SamlConnector.parse_idp_xml]
  simp [he, hcert, hsso]

/-- Witness for C9 at `sampleRootNoSso`. -/
theorem parse_missing_sso_succeeds_witness :
    SamlConnector.parse_idp_xml sampleRootNoSso =
      .ok ("https://idp.example.com/metadata", some "MIIC-sample-cert", none) := by
  have h := parse_missing_sso_succeeds sampleRootNoSso sampleCertEl
    "https://idp.example.com/metadata" rfl rfl rfl
  exact h.trans (by decide)

/-- Claim C10: on a document with no `X509Certificate` element, parsing
always fails (never an `ok` result with a null certificate); when the root
does carry `entityID`, the failure is precisely the `AttributeError` of
the text access on the missing element. -/
theorem parse_missing_cert_fails (root : Xml)
    (hcert : Xml.findDesc SamlConnector.x509CertTag root = none) :
    (∃ err, SamlConnector.parse_idp_xml root = .error err) ∧
    (∀ r, SamlConnector.parse_idp_xml root ≠ .ok r) ∧
    (∀ e, root.attrib.lookup "entityID" = some e →
      SamlConnector.parse_idp_xml root =
        .error (.pyError "AttributeError: NoneType object has no attribute text")) := by
  have hmain : ∃ err, SamlConnector.parse_idp_xml root = .error err := by
    cases hl : root.attrib.lookup "entityID" with
    | none =>
      exact ⟨.pyError "KeyError: entityID", by rw [SamlConnector.parse_idp_xml]; simp [hl]⟩
    | some e =>
      exact ⟨.pyError "AttributeError: NoneType object has no attribute text",
        by rw [SamlConnector.parse_idp_xml]; simp [hl, hcert]⟩
  refine ⟨hmain, ?_, ?_⟩
  · intro r hok
    obtain ⟨err, herr⟩ := hmain
    rw [hok] at herr
    exact Except.noConfusion herr
  · intro e hl
    rw [SamlConnector.parse_idp_xml]
    simp [hl, hcert]

/-- Witness for C10 at `sampleRootNoCert`. -/
theorem parse_missing_cert_fails_witness :
    SamlConnector.parse_idp_xml sampleRootNoCert =
      .error (.pyError "AttributeError: NoneType object has no attribute text") :=
  (parse_missing_cert_fails sampleRootNoCert rfl).2.2
    "https://idp.example.com/metadata" rfl
